import Mathlib

/-!
Shallow embedding of `maestrowf/interfaces/script/fluxscriptadapter.py`
(the Flux scheduler adapter, in its two variants `FluxScriptAdapter` and
`SpectrumFluxScriptAdapter`), together with theorems settling the frozen
claims about it.

Conventions of the embedding:
* Python dict fields of `step.run` become fields of the `StepRun`
  structure.  A field read with `step.run.get(key, default)` where the
  key may be absent is modelled as `Option Nat` (`none` = key absent);
  a field the code always indexes directly (`step.run[key]`) and that
  every claim exercises with a present value is a plain field.
* Raising an exception before the remote call is modelled by returning
  `Except.error`; `Except.ok spec` means control reached
  `self.h.rpc_send("job.submit", spec)` with jobspec `spec`.
* The key-value store and the `flux wreck` subprocess exit codes are
  oracles (`Kvs`, `CancelEnv`): functions from a job identifier to the
  outcome of the corresponding read or call.  A read that raises
  `IOError` is `.ioErr`; a read that raises the (non-IOError)
  `EnvironmentError` for a missing path is `.noEnt`.
* Python integer exit-status words are `Nat`.
-/

namespace FluxAdapter

/-- Normalized lifecycle state enum (`maestrowf.abstracts.enums.State`,
outside `src/`).  Modelled from the spec: "a closed enum
{WAITING, PENDING, RUNNING, FINISHED, FAILED, CANCELLED, UNKNOWN}". -/
inductive State where
  | WAITING
  | PENDING
  | RUNNING
  | FINISHED
  | FAILED
  | CANCELLED
  | UNKNOWN
  deriving DecidableEq, Repr

/-- Status code of a poll (`maestrowf.abstracts.enums.JobStatusCode`,
outside `src/`).  Modelled from the spec: "an overall status code
(OK / error / no jobs supplied)". -/
inductive JobStatusCode where
  | OK
  | NOJOBS
  | ERROR
  deriving DecidableEq, Repr

/-- Result code of a cancellation batch
(`maestrowf.abstracts.enums.CancelCode`, outside `src/`).
Modelled from the spec: "`cancelJobs(identifiers) → code: OK|ERROR`". -/
inductive CancelCode where
  | OK
  | ERROR
  deriving DecidableEq, Repr

/-- The `run` dictionary of a StudyStep, restricted to the keys the
adapter reads: `nodes`, `procs`, `cores per task`, `gpus`, `walltime`,
`cmd`. -/
structure StepRun where
  nodes : Nat
  procs : Option Nat
  cores_per_task : Option Nat
  gpus : Option Nat
  walltime : String
  cmd : String
  deriving DecidableEq, Repr

/-- A StudyStep, restricted to the fields the adapter reads. -/
structure Step where
  name : String
  description : String
  run : StepRun
  deriving DecidableEq, Repr

/-- Split a character list at every colon (the `%H:%M:%S` separator),
mirroring how `datetime.strptime` consumes the fields of the fixed
format string. -/
def splitColons : List Char → List (List Char)
  | [] => [[]]
  | c :: rest =>
    if c = ':' then [] :: splitColons rest
    else
      match splitColons rest with
      | [] => [[c]]
      | g :: gs => (c :: g) :: gs

/-- Numeric value of a digit list (most significant digit first). -/
def digitsVal (cs : List Char) : Nat :=
  cs.foldl (fun a c => a * 10 + (c.toNat - 48)) 0

/-- One `strptime` numeric field: one or two ASCII digits whose value is
at most `bound` (`%H` → 23, `%M` → 59, `%S` → 59: the `%S` regex alone
admits 60-61, but the `datetime` constructor then raises
`ValueError: second must be in 0..59`, so the call as a whole accepts
only 0..59). -/
def fieldVal (cs : List Char) (bound : Nat) : Option Nat :=
  if (cs.length = 1 ∨ cs.length = 2) ∧ cs.all Char.isDigit then
    if digitsVal cs ≤ bound then some (digitsVal cs) else none
  else none

/-- `_convert_walltime_to_seconds` (identical in both adapter classes):
`datetime.strptime(walltime, "%H:%M:%S") - datetime(1900, 1, 1)` in
whole seconds.  `none` models the `ValueError` that `strptime` raises
on a string not matching the format. -/
def _convert_walltime_to_seconds (walltime : String) : Option Nat :=
  match splitColons walltime.data with
  | [h, m, s] => do
    let hv ← fieldVal h 23
    let mv ← fieldVal m 59
    let sv ← fieldVal s 59
    pure (hv * 3600 + mv * 60 + sv)
  | _ => none

/-- `_state` (identical in both adapter classes): map a scheduler
native status string to a `State` member. -/
def _state (flux_state : String) : State :=
  if flux_state = "running" then State.RUNNING
  else if flux_state = "pending" ∨ flux_state = "runrequest"
      ∨ flux_state = "allocated" ∨ flux_state = "starting" then State.PENDING
  else if flux_state = "submitted" then State.WAITING
  else if flux_state = "failed" then State.FAILED
  else if flux_state = "cancelled" ∨ flux_state = "killed" then State.CANCELLED
  else if flux_state = "complete" then State.FINISHED
  else if flux_state = "unknown" then State.UNKNOWN
  else State.UNKNOWN

/-- The `opts` sub-dictionary of a Flux jobspec. -/
structure JobOpts where
  nnodes : Nat
  ntasks : Nat
  cores_per_task : Nat
  tasks_per_node : Nat
  deriving DecidableEq, Repr

/-- The jobspec dictionary that `FluxScriptAdapter.submit` serializes
into `rpc_send("job.submit", ...)` (key `"ngpus"`).  The `environ`,
`options`, `cwd` entries are constants or ambient-environment data not
touched by any claim and are omitted. -/
structure FluxJobspec where
  nnodes : Nat
  ntasks : Nat
  ncores : Nat
  ngpus : Nat
  opts : JobOpts
  walltime : Nat
  cmdline : List String
  deriving DecidableEq, Repr

/-- The jobspec dictionary that `SpectrumFluxScriptAdapter.submit`
serializes into `rpc_send("job.submit", ...)` (key `"gpus"`). -/
structure SpectrumJobspec where
  nnodes : Nat
  ntasks : Nat
  ncores : Nat
  gpus : Nat
  opts : JobOpts
  walltime : Nat
  cmdline : List String
  deriving DecidableEq, Repr

/-- The effective cores-per-task of `FluxScriptAdapter.submit`:
`step.run.get("cores per task", 1)` followed by the falsy-value
replacement `if not cores_per_task: cores_per_task = 1`. -/
def flux_cores_per_task (run : StepRun) : Nat :=
  let c := run.cores_per_task.getD 1
  if c = 0 then 1 else c

/-- The effective GPU count of `FluxScriptAdapter.submit`:
`step.run.get("gpus", 0)` followed by the falsy-value replacement
`if not ngpus: ngpus = 0`. -/
def flux_ngpus (run : StepRun) : Nat :=
  let g := run.gpus.getD 0
  if g = 0 then 0 else g

/-- `FluxScriptAdapter.submit` up to the remote call: `Except.error`
models an exception (`ValueError` from walltime conversion or from the
resource validation) raised before `rpc_send`; `Except.ok spec` means
`rpc_send("job.submit", spec)` is invoked. -/
def flux_submit (step : Step) (path : String) : Except String FluxJobspec :=
  match _convert_walltime_to_seconds step.run.walltime with
  | none => Except.error "ValueError: walltime does not match format"
  | some walltime =>
    let nodes := step.run.nodes
    let processors := step.run.procs.getD 0
    let cores_per_task := flux_cores_per_task step.run
    let ngpus := flux_ngpus step.run
    let ncores := cores_per_task * nodes
    if processors > 0 ∧ processors ≠ ncores then
      Except.error "ValueError: calculated ncores does not match procs"
    else if ncores ≤ 0 then
      Except.error "ValueError: invalid number of cores"
    else
      Except.ok
        { nnodes := step.run.nodes
          ntasks := nodes
          ncores := ncores
          ngpus := ngpus
          opts :=
            { nnodes := nodes
              ntasks := nodes
              cores_per_task := cores_per_task
              tasks_per_node := 1 }
          walltime := walltime
          cmdline := ["flux", "broker", path] }

/-- `SpectrumFluxScriptAdapter.submit` up to the remote call.
`Except.error` models an exception raised before `rpc_send`
(`ValueError` from walltime conversion, or `KeyError` because the
jobspec's `opts` reads `step.run["cores per task"]` by direct
indexing); `Except.ok spec` means `rpc_send("job.submit", spec)` is
invoked.  This variant performs no resource validation. -/
def spectrum_submit (step : Step) (path : String) :
    Except String SpectrumJobspec :=
  match _convert_walltime_to_seconds step.run.walltime with
  | none => Except.error "ValueError: walltime does not match format"
  | some walltime =>
    let cores_per_task := step.run.cores_per_task.getD 1
    match step.run.procs, step.run.cores_per_task with
    | none, _ => Except.error "KeyError: procs"
    | _, none => Except.error "KeyError: cores per task"
    | some procs, some cpt_raw =>
      Except.ok
        { nnodes := step.run.nodes
          ntasks := step.run.nodes
          ncores := cores_per_task * procs
          gpus := step.run.gpus.getD 0
          opts :=
            { nnodes := step.run.nodes
              ntasks := step.run.nodes
              cores_per_task := cpt_raw
              tasks_per_node := 1 }
          walltime := walltime
          cmdline :=
            if step.run.nodes > 1 then ["flux", "broker", path] else [path] }

/-- `os.WIFSIGNALED` on a nonnegative wait-status word: true exactly
when the low seven bits are neither 0 (normal exit path) nor 0x7f
(stopped), i.e. they name a terminating signal.  This is the glibc
macro `(((signed char) (((status) & 0x7f) + 1) >> 1) > 0)`. -/
def wifsignaled (status : Nat) : Bool :=
  status % 128 ≠ 0 ∧ status % 128 ≠ 127

/-- Outcome of one key-value-store read (`flux.kvs.get`): a value, a
raised `IOError` (low-level I/O fault), or a raised non-IOError
`EnvironmentError` (path absent from the store). -/
inductive KvsRead (α : Type) where
  | ok (a : α)
  | ioErr
  | noEnt
  deriving DecidableEq, Repr

/-- Oracle for the remote key-value store during one poll cycle.
`job.kvspath` resolves each identifier to one path, so the two reads
`kvs.get(h, path + ".state")` and `kvs.get(h, path + ".exit_status")`
are keyed here directly by the job identifier. -/
structure Kvs where
  state : Nat → KvsRead String
  exitMax : Nat → KvsRead Nat

/-- The status dictionary built by `check_jobs`: insertion-ordered
association list, as a CPython dict. -/
abbrev StatusDict := List (Nat × Option State)

/-- Python `d[k] = v`: overwrite in place if the key exists, else
append. -/
def dictSet (d : StatusDict) (k : Nat) (v : Option State) : StatusDict :=
  match d with
  | [] => [(k, v)]
  | (k', v') :: rest =>
    if k' = k then (k, v) :: rest else (k', v') :: dictSet rest k v

/-- Python `d.get(k, None)` on the status dictionary, except that the
outer `Option` distinguishes a missing key (`none`) from a stored
value. -/
def dictGet (d : StatusDict) (k : Nat) : Option (Option State) :=
  match d with
  | [] => none
  | (k', v') :: rest => if k' = k then some v' else dictGet rest k

/-- Key list of the status dictionary. -/
def dictKeys (d : StatusDict) : List Nat := d.map Prod.fst

/-- The pre-population loop of `check_jobs`: `status[jobid] = None`
for every requested identifier. -/
def prepopulate (joblist : List Nat) : StatusDict :=
  joblist.foldl (fun d j => dictSet d j none) []

/-- The body of the `check_jobs` per-job loop for one identifier:
read `.state`, on `"complete"` also read `.exit_status` and
reclassify by the maximum exit code.  `Except.error ()` models an
`IOError` reaching the handler that aborts the batch; the
`EnvironmentError` handler marks the job `"unknown"` instead. -/
def check_one (kvs : Kvs) (jobid : Nat) : Except Unit (Option State) :=
  match kvs.state jobid with
  | KvsRead.ioErr => Except.error ()
  | KvsRead.noEnt => Except.ok (some (_state "unknown"))
  | KvsRead.ok flux_state =>
    if flux_state = "complete" then
      match kvs.exitMax jobid with
      | KvsRead.ioErr => Except.error ()
      | KvsRead.noEnt => Except.ok (some (_state "unknown"))
      | KvsRead.ok rcode =>
        let reclassified :=
          if rcode ≠ 0 then
            if wifsignaled rcode then "killed" else "failed"
          else "complete"
        Except.ok (some (_state reclassified))
    else Except.ok (some (_state flux_state))

/-- The `check_jobs` loop over the promoted job list, threading the
status dictionary, followed by the final
`if not status: NOJOBS else OK` test. -/
def check_loop (kvs : Kvs) : List Nat → StatusDict → JobStatusCode × StatusDict
  | [], status =>
    if status = [] then (JobStatusCode.NOJOBS, status)
    else (JobStatusCode.OK, status)
  | jobid :: rest, status =>
    match check_one kvs jobid with
    | Except.error _ => (JobStatusCode.ERROR, status)
    | Except.ok v => check_loop kvs rest (dictSet status jobid v)

/-- The duck-typed argument of `check_jobs`: a list of identifiers, a
bare integer, or a string (standing for any other unsupported type). -/
inductive JobInput where
  | list (l : List Nat)
  | int (n : Nat)
  | str (s : String)
  deriving DecidableEq, Repr

/-- Python truthiness test `if not joblist` on the duck-typed input. -/
def inputFalsy : JobInput → Bool
  | JobInput.list l => l.isEmpty
  | JobInput.int n => n = 0
  | JobInput.str s => s = ""

/-- `FluxScriptAdapter.check_jobs` (the Spectrum variant's method is
identical): normalize the input shape, pre-populate the status
dictionary, poll each identifier. -/
def check_jobs (kvs : Kvs) (input : JobInput) : JobStatusCode × StatusDict :=
  if inputFalsy input then (JobStatusCode.OK, [])
  else
    match input with
    | JobInput.list joblist => check_loop kvs joblist (prepopulate joblist)
    | JobInput.int n => check_loop kvs [n] (prepopulate [n])
    | JobInput.str _ => (JobStatusCode.ERROR, [])

/-- Oracle for one cancellation batch: the key-value store seen by the
re-poll, and the exit codes of the `flux wreck cancel` and
`flux wreck kill` subprocess calls for each job identifier. -/
structure CancelEnv where
  kvs : Kvs
  cancelRet : Nat → Nat
  killRet : Nat → Nat

/-- Is the dictionary value in
`set([State.FINISHED, State.CANCELLED, State.FAILED])`?
(`status.get(job, None) in term_status`; `None` is in no such set.) -/
def inTermStatus (v : Option (Option State)) : Bool :=
  match v with
  | some (some s) =>
    s = State.FINISHED ∨ s = State.CANCELLED ∨ s = State.FAILED
  | _ => false

/-- One iteration of the `cancel_jobs` loop: graceful cancel, then
forceful kill, then a re-poll reconciliation.  Returns whether the job
counts as terminated, plus the subprocess command lines invoked.
After the re-poll the Python variable `retcode` holds a
`JobStatusCode` enum member, and `retcode != 0` is true for every enum
member, so the job counts as terminated only via the `term_status`
test. -/
def cancel_one (env : CancelEnv) (job : Nat) : Bool × List (List String) :=
  let cancelCmd := ["flux", "wreck", "cancel", toString job]
  if env.cancelRet job = 0 then (true, [cancelCmd])
  else
    let killCmd := ["flux", "wreck", "kill", toString job]
    if env.killRet job = 0 then (true, [cancelCmd, killCmd])
    else
      let status := (check_jobs env.kvs (JobInput.list [job])).2
      (status ≠ [] ∧ inTermStatus (dictGet status job),
        [cancelCmd, killCmd])

/-- The `cancel_jobs` loop: every job is processed (no early abort),
and any unconfirmed job downgrades the aggregate code to `ERROR`. -/
def cancel_loop (env : CancelEnv) :
    List Nat → CancelCode → CancelCode × List (List String)
  | [], acc => (acc, [])
  | job :: rest, acc =>
    let r := cancel_one env job
    let tail := cancel_loop env rest (if r.1 then acc else CancelCode.ERROR)
    (tail.1, r.2 ++ tail.2)

/-- `FluxScriptAdapter.cancel_jobs` (the Spectrum variant's method is
identical): empty input is trivially OK, otherwise run the loop. -/
def cancel_jobs (env : CancelEnv) (joblist : List Nat) :
    CancelCode × List (List String) :=
  if joblist.isEmpty then (CancelCode.OK, [])
  else cancel_loop env joblist CancelCode.OK

/-- Modelled from the spec: the executable-interpreter marker line
(`self._exec`, set in the abstract base class, which is outside
`src/`); §4.3 calls it "the bare interpreter marker line". -/
def _exec : String := "#!/bin/bash"

/-- `SpectrumFluxScriptAdapter.get_header`: the header line list the
Spectrum variant writes for a step destined for queued execution.
`batch_nodes` is the adapter's default `nodes` batch parameter, used
when the step's own node count is falsy.  `none` models the
`ValueError` raised by the walltime conversion. -/
def spectrum_get_header (batch_nodes : String) (step : Step) :
    Option (List String) :=
  match _convert_walltime_to_seconds step.run.walltime with
  | none => none
  | some wt =>
    let nodes_str :=
      if step.run.nodes ≠ 0 then toString step.run.nodes else batch_nodes
    some ([_exec,
      "#SBATCH -N " ++ nodes_str,
      "#SBATCH -t " ++ toString wt,
      "HOSTF_SINGLE=$(mktemp /tmp/hostls-XXXXX)",
      "HOSTF=$(mktemp /tmp/hostl-XXXXX)"]
      ++ [if step.run.nodes > 1 then "instance-nodes > $HOSTF_SINGLE"
          else "echo localhost > $HOSTF_SINGLE"]
      ++ ["sed -e \"s/$/:44/\" $HOSTF_SINGLE > $HOSTF ",
          "ulimit -s 10240"])

/-- Modelled from the spec: `get_scheduler_command` lives in the
abstract base class, which is outside `src/`.  Per §4.3 and §8 a
single-node step is not destined for queued execution (it "runs inline
under the current allocation" and its script gets no resource header),
while a multi-node step is queued and its command is the parallelized
one; the returned pair is (to_be_scheduled, command text). -/
def get_scheduler_command (step : Step) : Bool × String :=
  if step.run.nodes > 1 then (true, "$(LAUNCHER) " ++ step.run.cmd)
  else (false, step.run.cmd)

/-- The text `SpectrumFluxScriptAdapter._write_script` writes for the
primary command script: header (or bare marker line), a blank line,
the command body. -/
def spectrum_script_content (batch_nodes : String) (step : Step) :
    Option String :=
  let sched := get_scheduler_command step
  if sched.1 then
    match spectrum_get_header batch_nodes step with
    | none => none
    | some header =>
      some (String.intercalate "\n" header ++ "\n\n" ++ sched.2 ++ "\n")
  else some (_exec ++ "\n\n" ++ sched.2 ++ "\n")

/-- Decidable equality for `Except`, so that concrete runs of the
submission builders can be checked by `decide`. -/
instance {α β : Type} [DecidableEq α] [DecidableEq β] :
    DecidableEq (Except α β) := fun a b =>
  match a, b with
  | Except.ok x, Except.ok y =>
    if h : x = y then Decidable.isTrue (by rw [h])
    else Decidable.isFalse (by intro hh; cases hh; exact h rfl)
  | Except.error x, Except.error y =>
    if h : x = y then Decidable.isTrue (by rw [h])
    else Decidable.isFalse (by intro hh; cases hh; exact h rfl)
  | Except.ok _, Except.error _ => Decidable.isFalse (by intro hh; cases hh)
  | Except.error _, Except.ok _ => Decidable.isFalse (by intro hh; cases hh)

/-- The fixed `%H:%M:%S` shape: three colon-separated fields of one or
two digits, with hours ≤ 23, minutes ≤ 59 and seconds ≤ 59 (the bounds
`datetime.strptime` enforces for `%H`, `%M`, `%S`: seconds 60-61 pass
the `%S` regex but are rejected by the `datetime` constructor). -/
def matchesHMS (s : String) : Bool :=
  match splitColons s.data with
  | [h, m, sec] =>
    (h.length = 1 ∨ h.length = 2) ∧ h.all Char.isDigit ∧ digitsVal h ≤ 23 ∧
    (m.length = 1 ∨ m.length = 2) ∧ m.all Char.isDigit ∧ digitsVal m ≤ 59 ∧
    (sec.length = 1 ∨ sec.length = 2) ∧ sec.all Char.isDigit ∧
    digitsVal sec ≤ 59
  | _ => false

/-- The effect of one non-aborting `check_jobs` loop iteration on the
status dictionary. -/
def applyOk (kvs : Kvs) (d : StatusDict) (jobid : Nat) : StatusDict :=
  match check_one kvs jobid with
  | Except.ok v => dictSet d jobid v
  | Except.error _ => d

/-- The dictionary value a non-aborting poll stores for one
identifier. -/
def okVal (kvs : Kvs) (jobid : Nat) : Option State :=
  match check_one kvs jobid with
  | Except.ok v => v
  | Except.error _ => none

/-- Concrete step for the C1 witness: 2 nodes, 3 cores per task, an
explicit consistent process count of 6. -/
def stepC1w : Step :=
  { name := "w1", description := "d",
    run := { nodes := 2, procs := some 6, cores_per_task := some 3,
             gpus := some 0, walltime := "00:01:00", cmd := "run" } }

/-- The jobspec `flux_submit` sends for `stepC1w`. -/
def specC1w : FluxJobspec :=
  { nnodes := 2, ntasks := 2, ncores := 6, ngpus := 0,
    opts := { nnodes := 2, ntasks := 2, cores_per_task := 3,
              tasks_per_node := 1 },
    walltime := 60, cmdline := ["flux", "broker", "p"] }

/-- Concrete step for the C1 counterexample: the Spectrum variant with
2 nodes, 1 core per task and an explicit process count of 0. -/
def stepC1x : Step :=
  { name := "x1", description := "d",
    run := { nodes := 2, procs := some 0, cores_per_task := some 1,
             gpus := some 0, walltime := "00:01:00", cmd := "run" } }

/-- The jobspec `spectrum_submit` sends for `stepC1x`: zero cores. -/
def specC1x : SpectrumJobspec :=
  { nnodes := 2, ntasks := 2, ncores := 0, gpus := 0,
    opts := { nnodes := 2, ntasks := 2, cores_per_task := 1,
              tasks_per_node := 1 },
    walltime := 60, cmdline := ["flux", "broker", "s"] }

/-- Store oracle for the C2 witness: every job reads `"complete"` with
maximum exit status 9. -/
def kvsC2w : Kvs :=
  { state := fun _ => KvsRead.ok "complete",
    exitMax := fun _ => KvsRead.ok 9 }

/-- Store oracle for the C2 counterexample: every job reads
`"complete"` with maximum exit status 1. -/
def kvsC2x : Kvs :=
  { state := fun _ => KvsRead.ok "complete",
    exitMax := fun _ => KvsRead.ok 1 }

/-- Store oracle for the C3 witness: job 2 raises an I/O fault, job 3
has a missing path, every other job reads `"running"`. -/
def kvsC3w : Kvs :=
  { state := fun j =>
      if j = 2 then KvsRead.ioErr
      else if j = 3 then KvsRead.noEnt
      else KvsRead.ok "running",
    exitMax := fun _ => KvsRead.ok 0 }

/-- Cancellation oracle for the C5 witness: both control-tool calls
fail for every job; job 4's re-poll reads a terminal `"complete"` with
exit 0, every other job's re-poll reads `"running"`. -/
def envC5w : CancelEnv :=
  { kvs := { state := fun j =>
               if j = 4 then KvsRead.ok "complete" else KvsRead.ok "running",
             exitMax := fun _ => KvsRead.ok 0 },
    cancelRet := fun _ => 1,
    killRet := fun _ => 1 }

/-- Store oracle for the C6 witness: every job reads `"running"`. -/
def kvsC6w : Kvs :=
  { state := fun _ => KvsRead.ok "running",
    exitMax := fun _ => KvsRead.ok 0 }

/-- Concrete step for the C7 witness: present-but-zero cores-per-task
and GPU count. -/
def stepC7w : Step :=
  { name := "w7", description := "d",
    run := { nodes := 3, procs := some 3, cores_per_task := some 0,
             gpus := some 0, walltime := "00:01:00", cmd := "run" } }

/-- The jobspec `flux_submit` sends for `stepC7w`: the falsy inputs
are replaced by the defaults. -/
def specC7w : FluxJobspec :=
  { nnodes := 3, ntasks := 3, ncores := 3, ngpus := 0,
    opts := { nnodes := 3, ntasks := 3, cores_per_task := 1,
              tasks_per_node := 1 },
    walltime := 60, cmdline := ["flux", "broker", "p"] }

/-- Concrete step for the C7 counterexample: the Spectrum variant with
a present-but-zero cores-per-task. -/
def stepC7x : Step :=
  { name := "x7", description := "d",
    run := { nodes := 1, procs := some 4, cores_per_task := some 0,
             gpus := some 0, walltime := "00:01:00", cmd := "run" } }

/-- The jobspec `spectrum_submit` sends for `stepC7x`: the falsy
cores-per-task is kept, not replaced by the default 1. -/
def specC7x : SpectrumJobspec :=
  { nnodes := 1, ntasks := 1, ncores := 0, gpus := 0,
    opts := { nnodes := 1, ntasks := 1, cores_per_task := 0,
              tasks_per_node := 1 },
    walltime := 60, cmdline := ["s"] }

/-- Concrete single-node step for the C8 witness. -/
def stepC8s : Step :=
  { name := "w8s", description := "d",
    run := { nodes := 1, procs := some 1, cores_per_task := some 1,
             gpus := some 0, walltime := "00:01:00", cmd := "run" } }

/-- Concrete multi-node step for the C8 witness. -/
def stepC8m : Step :=
  { name := "w8m", description := "d",
    run := { nodes := 2, procs := some 2, cores_per_task := some 1,
             gpus := some 0, walltime := "01:30:00", cmd := "run" } }

/-- Concrete step with a malformed walltime for the C9 witness. -/
def stepC9w : Step :=
  { name := "w9", description := "d",
    run := { nodes := 2, procs := some 2, cores_per_task := some 1,
             gpus := some 0, walltime := "90 minutes", cmd := "run" } }

/-- Arbitrary jobspec used to state the C9 witness. -/
def specC9w : FluxJobspec :=
  { nnodes := 0, ntasks := 0, ncores := 0, ngpus := 0,
    opts := { nnodes := 0, ntasks := 0, cores_per_task := 0,
              tasks_per_node := 0 },
    walltime := 0, cmdline := [] }

/-- Store oracle for the C10 witness: job 2 raises an I/O fault, every
other job reads `"running"`. -/
def kvsC10w : Kvs :=
  { state := fun j => if j = 2 then KvsRead.ioErr else KvsRead.ok "running",
    exitMax := fun _ => KvsRead.ok 0 }

theorem dictSet_ne_nil (d : StatusDict) (k : Nat) (v : Option State) :
    dictSet d k v ≠ [] := by
  cases d with
  | nil => simp [dictSet]
  | cons p rest =>
    obtain ⟨k', v'⟩ := p
    simp only [dictSet]
    split <;> simp

theorem dictGet_dictSet_self (d : StatusDict) (k : Nat) (v : Option State) :
    dictGet (dictSet d k v) k = some v := by
  induction d with
  | nil => simp [dictSet, dictGet]
  | cons p rest ih =>
    obtain ⟨k', v'⟩ := p
    simp only [dictSet]
    by_cases h : k' = k
    · simp [h, dictGet]
    · simp [h, dictGet, ih]

theorem dictGet_dictSet_ne (d : StatusDict) (k k' : Nat) (v : Option State)
    (h : k' ≠ k) : dictGet (dictSet d k v) k' = dictGet d k' := by
  induction d with
  | nil => simp [dictSet, dictGet, Ne.symm h]
  | cons p rest ih =>
    obtain ⟨a, b⟩ := p
    simp only [dictSet]
    by_cases ha : a = k
    · subst ha
      simp [dictGet, h, Ne.symm h]
    · simp only [ha, if_false, dictGet]
      by_cases hb : a = k'
      · simp [hb]
      · simp [hb, ih]

theorem mem_dictKeys_dictSet (d : StatusDict) (k : Nat) (v : Option State)
    (x : Nat) : x ∈ dictKeys (dictSet d k v) ↔ x ∈ dictKeys d ∨ x = k := by
  induction d with
  | nil => simp [dictSet, dictKeys]
  | cons p rest ih =>
    obtain ⟨a, b⟩ := p
    simp only [dictSet]
    by_cases ha : a = k
    · subst ha
      rw [if_pos rfl]
      simp only [dictKeys, List.map_cons, List.mem_cons]
      tauto
    · rw [if_neg ha]
      simp only [dictKeys, List.map_cons, List.mem_cons] at ih ⊢
      rw [ih]
      tauto

theorem dictKeys_dictSet_of_mem (d : StatusDict) (k : Nat) (v : Option State)
    (h : k ∈ dictKeys d) : dictKeys (dictSet d k v) = dictKeys d := by
  induction d with
  | nil => simp [dictKeys] at h
  | cons p rest ih =>
    obtain ⟨a, b⟩ := p
    simp only [dictSet]
    by_cases ha : a = k
    · simp [ha, dictKeys]
    · simp only [dictKeys, List.map_cons, List.mem_cons] at h
      rcases h with h | h
      · exact absurd h.symm ha
      · simp only [ha, if_false, dictKeys, List.map_cons, List.cons.injEq,
          true_and]
        exact ih h

theorem mem_dictKeys_prepopulate_aux (l : List Nat) (st : StatusDict)
    (j : Nat) :
    j ∈ dictKeys (l.foldl (fun d i => dictSet d i none) st) ↔
      j ∈ dictKeys st ∨ j ∈ l := by
  induction l generalizing st with
  | nil => simp
  | cons a l ih =>
    simp only [List.foldl_cons, ih, mem_dictKeys_dictSet, List.mem_cons]
    tauto

theorem mem_dictKeys_prepopulate (l : List Nat) (j : Nat) :
    j ∈ dictKeys (prepopulate l) ↔ j ∈ l := by
  have h := mem_dictKeys_prepopulate_aux l [] j
  simpa [prepopulate, dictKeys] using h

theorem prepopulate_ne_nil (l : List Nat) (h : l ≠ []) :
    prepopulate l ≠ [] := by
  intro hnil
  rcases l with _ | ⟨a, l⟩
  · exact h rfl
  · have := mem_dictKeys_prepopulate (a :: l) a
    rw [hnil] at this
    simp [dictKeys] at this

theorem check_loop_abort (kvs : Kvs) (pre : List Nat) (j : Nat)
    (post : List Nat) (st : StatusDict)
    (hpre : ∀ i ∈ pre, check_one kvs i ≠ Except.error ())
    (hj : check_one kvs j = Except.error ()) :
    check_loop kvs (pre ++ j :: post) st =
      (JobStatusCode.ERROR, pre.foldl (applyOk kvs) st) := by
  induction pre generalizing st with
  | nil => simp [check_loop, hj]
  | cons a pre ih =>
    have ha := hpre a (by simp)
    cases hca : check_one kvs a with
    | error e =>
      cases e
      exact absurd hca ha
    | ok v =>
      simp only [List.cons_append, check_loop, hca, List.foldl_cons,
        applyOk]
      exact ih (dictSet st a v) (fun i hi => hpre i (by simp [hi]))

theorem check_loop_clean (kvs : Kvs) (l : List Nat) (st : StatusDict)
    (h : ∀ i ∈ l, check_one kvs i ≠ Except.error ()) :
    check_loop kvs l st =
      (if l.foldl (applyOk kvs) st = [] then JobStatusCode.NOJOBS
       else JobStatusCode.OK,
       l.foldl (applyOk kvs) st) := by
  induction l generalizing st with
  | nil =>
    simp only [check_loop, List.foldl_nil]
    split <;> simp [*]
  | cons a l ih =>
    have ha := h a (by simp)
    cases hca : check_one kvs a with
    | error e =>
      cases e
      exact absurd hca ha
    | ok v =>
      simp only [check_loop, hca, List.foldl_cons, applyOk]
      exact ih (dictSet st a v) (fun i hi => h i (by simp [hi]))

theorem foldl_applyOk_ne_nil (kvs : Kvs) (l : List Nat) (st : StatusDict)
    (h : st ≠ []) : l.foldl (applyOk kvs) st ≠ [] := by
  induction l generalizing st with
  | nil => simpa
  | cons a l ih =>
    simp only [List.foldl_cons]
    apply ih
    unfold applyOk
    cases check_one kvs a with
    | error e => exact h
    | ok v => exact dictSet_ne_nil st a v

theorem dictGet_foldl_applyOk_not_mem (kvs : Kvs) (l : List Nat)
    (st : StatusDict) (j : Nat) (hj : j ∉ l) :
    dictGet (l.foldl (applyOk kvs) st) j = dictGet st j := by
  induction l generalizing st with
  | nil => simp
  | cons a l ih =>
    have hne : j ≠ a := fun h => hj (by simp [h])
    have hnl : j ∉ l := fun h => hj (by simp [h])
    simp only [List.foldl_cons]
    rw [ih (applyOk kvs st a) hnl]
    unfold applyOk
    cases check_one kvs a with
    | error e => rfl
    | ok v => exact dictGet_dictSet_ne st a j v hne

theorem dictGet_foldl_applyOk_mem (kvs : Kvs) (l : List Nat)
    (st : StatusDict) (h : ∀ i ∈ l, check_one kvs i ≠ Except.error ())
    (j : Nat) (hj : j ∈ l) :
    dictGet (l.foldl (applyOk kvs) st) j = some (okVal kvs j) := by
  induction l generalizing st with
  | nil => simp at hj
  | cons a l ih =>
    simp only [List.foldl_cons]
    by_cases hmem : j ∈ l
    · exact ih (applyOk kvs st a) (fun i hi => h i (by simp [hi])) hmem
    · have hja : j = a := by
        rcases List.mem_cons.mp hj with h1 | h1
        · exact h1
        · exact absurd h1 hmem
      subst hja
      rw [dictGet_foldl_applyOk_not_mem kvs l _ j hmem]
      have hok := h j (by simp)
      unfold applyOk okVal
      cases hc : check_one kvs j with
      | error e =>
        cases e
        exact absurd hc hok
      | ok v => exact dictGet_dictSet_self st j v

theorem check_loop_keys (kvs : Kvs) (l : List Nat) (st : StatusDict)
    (h : ∀ i ∈ l, i ∈ dictKeys st) :
    dictKeys (check_loop kvs l st).2 = dictKeys st := by
  induction l generalizing st with
  | nil =>
    simp only [check_loop]
    split <;> rfl
  | cons a l ih =>
    simp only [check_loop]
    cases check_one kvs a with
    | error e => rfl
    | ok v =>
      rw [ih (dictSet st a v)
        (fun i hi => by
          rw [mem_dictKeys_dictSet]
          exact Or.inl (h i (by simp [hi])))]
      exact dictKeys_dictSet_of_mem st a v (h a (by simp))

theorem check_loop_ne_nojobs (kvs : Kvs) (l : List Nat) (st : StatusDict)
    (h : st ≠ []) : (check_loop kvs l st).1 ≠ JobStatusCode.NOJOBS := by
  induction l generalizing st with
  | nil => simp [check_loop, h]
  | cons a l ih =>
    simp only [check_loop]
    cases check_one kvs a with
    | error e => simp
    | ok v => exact ih (dictSet st a v) (dictSet_ne_nil st a v)

theorem fieldVal_eq_some (cs : List Char) (b v : Nat)
    (h : fieldVal cs b = some v) :
    (cs.length = 1 ∨ cs.length = 2) ∧ cs.all Char.isDigit ∧
      digitsVal cs ≤ b ∧ v = digitsVal cs := by
  unfold fieldVal at h
  split at h
  · split at h
    · rename_i h1 h2
      cases h
      exact ⟨h1.1, h1.2, h2, rfl⟩
    · cases h
  · cases h

theorem fieldVal_digits (cs : List Char) (b : Nat)
    (h1 : cs.length = 1 ∨ cs.length = 2) (h2 : cs.all Char.isDigit)
    (h3 : digitsVal cs ≤ b) : fieldVal cs b = some (digitsVal cs) := by
  unfold fieldVal
  rw [if_pos ⟨h1, h2⟩, if_pos h3]

/-- C4: the state translator is a total deterministic function on
strings: "running" ↦ RUNNING; "pending", "runrequest", "allocated",
"starting" ↦ PENDING; "submitted" ↦ WAITING; "failed" ↦ FAILED;
"cancelled", "killed" ↦ CANCELLED; "complete" ↦ FINISHED; every other
string (including "unknown") ↦ UNKNOWN, never raising. -/
theorem c4_state_translator_total :
    (∀ s : String,
      s ∉ ["running", "pending", "runrequest", "allocated", "starting",
           "submitted", "failed", "cancelled", "killed", "complete"] →
      _state s = State.UNKNOWN) ∧
    _state "running" = State.RUNNING ∧
    _state "pending" = State.PENDING ∧
    _state "runrequest" = State.PENDING ∧
    _state "allocated" = State.PENDING ∧
    _state "starting" = State.PENDING ∧
    _state "submitted" = State.WAITING ∧
    _state "failed" = State.FAILED ∧
    _state "cancelled" = State.CANCELLED ∧
    _state "killed" = State.CANCELLED ∧
    _state "complete" = State.FINISHED ∧
    _state "unknown" = State.UNKNOWN := by
  refine ⟨?_, by decide, by decide, by decide, by decide, by decide,
    by decide, by decide, by decide, by decide, by decide, by decide⟩
  intro s hs
  simp only [List.mem_cons, List.not_mem_nil, or_false, not_or] at hs
  obtain ⟨h1, h2, h3, h4, h5, h6, h7, h8, h9, h10⟩ := hs
  simp [_state, h1, h2, h3, h4, h5, h6, h7, h8, h9, h10]

/-- Witness for C4 at the unrecognized input "bogus". -/
theorem c4_witness : _state "bogus" = State.UNKNOWN :=
  c4_state_translator_total.1 "bogus" (by decide)

/-- C9: walltime "01:30:00" converts to exactly 5400 seconds; a string
whose shape is not `H:MM:SS` (one or two digits per field, within the
`strptime` bounds) fails the conversion, and that failure propagates:
the header build and both submission paths fail rather than silently
defaulting. -/
theorem c9_walltime_conversion :
    _convert_walltime_to_seconds "01:30:00" = some 5400 ∧
    (∀ s : String, matchesHMS s = false →
      _convert_walltime_to_seconds s = none) ∧
    (∀ b : String, ∀ step : Step,
      _convert_walltime_to_seconds step.run.walltime = none →
      spectrum_get_header b step = none) ∧
    (∀ step : Step, ∀ p : String,
      _convert_walltime_to_seconds step.run.walltime = none →
      ∀ spec, flux_submit step p ≠ Except.ok spec) ∧
    (∀ step : Step, ∀ p : String,
      _convert_walltime_to_seconds step.run.walltime = none →
      ∀ spec, spectrum_submit step p ≠ Except.ok spec) := by
  refine ⟨by decide, ?_, ?_, ?_, ?_⟩
  · intro s hm
    unfold matchesHMS at hm
    unfold _convert_walltime_to_seconds
    cases hsp : splitColons s.data with
    | nil => rfl
    | cons h rest =>
      rw [hsp] at hm
      cases rest with
      | nil => rfl
      | cons m rest2 =>
        cases rest2 with
        | nil => rfl
        | cons sec rest3 =>
          cases rest3 with
          | cons x rest4 => rfl
          | nil =>
            dsimp only at hm
            rw [decide_eq_false_iff_not] at hm
            cases hv : fieldVal h 23 with
            | none => simp [hv]
            | some hvv =>
              cases hmv : fieldVal m 59 with
              | none => simp [hv, hmv]
              | some mvv =>
                cases hsv : fieldVal sec 59 with
                | none => simp [hv, hmv, hsv]
                | some svv =>
                  exfalso
                  have h1 := fieldVal_eq_some h 23 hvv hv
                  have h2 := fieldVal_eq_some m 59 mvv hmv
                  have h3 := fieldVal_eq_some sec 59 svv hsv
                  exact hm ⟨h1.1, h1.2.1, h1.2.2.1, h2.1, h2.2.1,
                    h2.2.2.1, h3.1, h3.2.1, h3.2.2.1⟩
  · intro b step h
    simp [spectrum_get_header, h]
  · intro step p h spec
    simp [flux_submit, h]
  · intro step p h spec
    simp [spectrum_submit, h]

/-- Witness for C9: "90 minutes" does not match the format, so
conversion, header build and submission all fail on `stepC9w`. -/
theorem c9_witness :
    _convert_walltime_to_seconds "90 minutes" = none ∧
    spectrum_get_header "1" stepC9w = none ∧
    flux_submit stepC9w "p" ≠ Except.ok specC9w := by
  refine ⟨c9_walltime_conversion.2.1 "90 minutes" (by decide), ?_, ?_⟩
  · exact c9_walltime_conversion.2.2.1 "1" stepC9w (by decide)
  · exact c9_walltime_conversion.2.2.2.1 stepC9w "p" (by decide) specC9w

/-- C6: `check_jobs` normalizes its input shape: a falsy input (empty
list, and likewise the falsy scalars 0 and "") returns (OK, {}) without
touching the store; a bare nonzero integer identifier is promoted to a
one-element list and polled exactly like that list; a non-empty string
(any other unsupported type) returns (ERROR, {}) without touching the
store. -/
theorem c6_check_jobs_input_shape (kvs : Kvs) (n : Nat) (s : String) :
    (∀ input, inputFalsy input = true →
      check_jobs kvs input = (JobStatusCode.OK, [])) ∧
    (n ≠ 0 →
      check_jobs kvs (JobInput.int n) = check_jobs kvs (JobInput.list [n])) ∧
    (s ≠ "" → check_jobs kvs (JobInput.str s) = (JobStatusCode.ERROR, [])) := by
  refine ⟨?_, ?_, ?_⟩
  · intro input h
    unfold check_jobs
    rw [if_pos h]
  · intro hn
    unfold check_jobs
    have h1 : inputFalsy (JobInput.int n) = false := by
      simp [inputFalsy, hn]
    have h2 : inputFalsy (JobInput.list [n]) = false := by
      simp [inputFalsy]
    rw [h1, h2]
  · intro hs
    unfold check_jobs
    have h1 : inputFalsy (JobInput.str s) = false := by
      simp [inputFalsy, hs]
    rw [h1]
    simp

/-- Witness for C6: the empty list yields (OK, {}), the bare integer 42
is promoted and polled, and the string "x" yields (ERROR, {}). -/
theorem c6_witness :
    check_jobs kvsC6w (JobInput.list []) = (JobStatusCode.OK, []) ∧
    check_jobs kvsC6w (JobInput.int 42) =
      check_jobs kvsC6w (JobInput.list [42]) ∧
    check_jobs kvsC6w (JobInput.str "x") = (JobStatusCode.ERROR, []) :=
  ⟨(c6_check_jobs_input_shape kvsC6w 42 "x").1 (JobInput.list []) (by decide),
   (c6_check_jobs_input_shape kvsC6w 42 "x").2.1 (by decide),
   (c6_check_jobs_input_shape kvsC6w 42 "x").2.2 (by decide)⟩

/-- C10: `check_jobs` never returns NOJOBS: a falsy input returns OK
with an empty mapping, and for a list input the status mapping's key
set always equals the set of requested identifiers — even when the
batch aborts mid-way — so the mapping of a non-empty batch is
non-empty and the NOJOBS branch is unreachable. -/
theorem c10_nojobs_unreachable (kvs : Kvs) (input : JobInput) :
    (check_jobs kvs input).1 ≠ JobStatusCode.NOJOBS ∧
    (∀ l, input = JobInput.list l →
      ∀ j, j ∈ dictKeys (check_jobs kvs input).2 ↔ j ∈ l) := by
  constructor
  · cases input with
    | list l =>
      cases l with
      | nil => simp [check_jobs, inputFalsy]
      | cons a l =>
        unfold check_jobs
        rw [if_neg (by simp [inputFalsy])]
        exact check_loop_ne_nojobs kvs (a :: l) (prepopulate (a :: l))
          (prepopulate_ne_nil (a :: l) (by simp))
    | int n =>
      by_cases hn : n = 0
      · subst hn
        simp [check_jobs, inputFalsy]
      · unfold check_jobs
        rw [if_neg (by simp [inputFalsy, hn])]
        exact check_loop_ne_nojobs kvs [n] (prepopulate [n])
          (prepopulate_ne_nil [n] (by simp))
    | str s =>
      by_cases hs : s = ""
      · subst hs
        simp [check_jobs, inputFalsy]
      · unfold check_jobs
        rw [if_neg (by simp [inputFalsy, hs])]
        simp
  · rintro l rfl j
    cases l with
    | nil => simp [check_jobs, inputFalsy, dictKeys]
    | cons a l =>
      unfold check_jobs
      rw [if_neg (by simp [inputFalsy])]
      rw [check_loop_keys kvs (a :: l) (prepopulate (a :: l))
        (fun i hi => (mem_dictKeys_prepopulate (a :: l) i).mpr hi)]
      exact mem_dictKeys_prepopulate (a :: l) j

/-- Witness for C10: on an aborting batch (the store faults on job 2)
the code is ERROR, not NOJOBS, and the keys of the partial mapping are
exactly the requested identifiers. -/
theorem c10_witness :
    (check_jobs kvsC10w (JobInput.list [1, 2, 3])).1 ≠
      JobStatusCode.NOJOBS ∧
    (2 ∈ dictKeys (check_jobs kvsC10w (JobInput.list [1, 2, 3])).2 ↔
      2 ∈ [1, 2, 3]) ∧
    (check_jobs kvsC10w (JobInput.list [1, 2, 3])).1 = JobStatusCode.ERROR :=
  ⟨(c10_nojobs_unreachable kvsC10w (JobInput.list [1, 2, 3])).1,
   (c10_nojobs_unreachable kvsC10w (JobInput.list [1, 2, 3])).2
     [1, 2, 3] rfl 2,
   by decide⟩

/-- C2 (amended): for a job whose native state marker reads
"complete", `check_jobs` reads the aggregated exit-status record's
maximum exit code `m`: `m = 0` yields FINISHED; a nonzero `m` whose
low seven bits name a terminating signal (`os.WIFSIGNALED`) yields
CANCELLED (native "killed"); any other nonzero `m` yields FAILED.  In
particular `m = 9` yields CANCELLED — and so does `m = 1`, because
`os.WIFSIGNALED 1` holds (signal 1), so 1 does not yield FAILED. -/
theorem c2_complete_reclassification (kvs : Kvs) (jobid m : Nat)
    (hs : kvs.state jobid = KvsRead.ok "complete")
    (he : kvs.exitMax jobid = KvsRead.ok m) :
    check_jobs kvs (JobInput.list [jobid]) =
      (JobStatusCode.OK,
       [(jobid,
         some (if m = 0 then State.FINISHED
               else if wifsignaled m then State.CANCELLED
               else State.FAILED))]) := by
  unfold check_jobs
  rw [if_neg (by simp [inputFalsy])]
  by_cases hm : m = 0
  · subst hm
    simp [check_loop, check_one, prepopulate, dictSet, hs, he, _state]
  · by_cases hw : wifsignaled m
    · simp [check_loop, check_one, prepopulate, dictSet, hs, he, hm, hw,
        _state]
    · simp only [Bool.not_eq_true] at hw
      simp [check_loop, check_one, prepopulate, dictSet, hs, he, hm, hw,
        _state]

/-- Witness for C2 at maximum exit code 9 ("complete" reclassified to
killed, hence CANCELLED). -/
theorem c2_witness :
    check_jobs kvsC2w (JobInput.list [3]) =
      (JobStatusCode.OK, [(3, some State.CANCELLED)]) := by
  have h := c2_complete_reclassification kvsC2w 3 9 rfl rfl
  simpa using h

/-- Counterexample to C2 as stated: a maximum exit code of 1 yields
CANCELLED (1 is in the signaled set: `os.WIFSIGNALED 1` is true), not
FAILED as the claim asserts. -/
theorem c2_counterexample :
    check_jobs kvsC2x (JobInput.list [7]) =
      (JobStatusCode.OK, [(7, some State.CANCELLED)]) ∧
    wifsignaled 1 = true ∧
    State.CANCELLED ≠ State.FAILED := by
  refine ⟨?_, by decide, by decide⟩
  decide

/-- C1 (amended): for `FluxScriptAdapter.submit`, the Job Request's
core count equals the effective cores-per-task times the node count,
and if that product is non-positive, or an explicitly supplied
positive process count disagrees with it, submit raises a
configuration error before `rpc_send` is invoked.
(`SpectrumFluxScriptAdapter.submit` instead computes core count as
cores-per-task times the process count and performs no validation;
see the counterexample.) -/
theorem c1_core_count (step : Step) (path : String) :
    (∀ spec, flux_submit step path = Except.ok spec →
      spec.ncores = flux_cores_per_task step.run * step.run.nodes ∧
      spec.opts.cores_per_task = flux_cores_per_task step.run ∧
      0 < spec.ncores ∧
      (∀ p, step.run.procs = some p → 0 < p → p = spec.ncores)) ∧
    (flux_cores_per_task step.run * step.run.nodes = 0 →
      ∀ spec, flux_submit step path ≠ Except.ok spec) ∧
    (∀ p, step.run.procs = some p → 0 < p →
      p ≠ flux_cores_per_task step.run * step.run.nodes →
      ∀ spec, flux_submit step path ≠ Except.ok spec) := by
  unfold flux_submit
  cases hw : _convert_walltime_to_seconds step.run.walltime with
  | none =>
    refine ⟨fun spec h => (by cases h), fun _ spec h => (by cases h),
      fun p _ _ _ spec h => (by cases h)⟩
  | some wt =>
    dsimp only
    by_cases hmis : step.run.procs.getD 0 > 0 ∧
        step.run.procs.getD 0 ≠ flux_cores_per_task step.run * step.run.nodes
    · rw [if_pos hmis]
      refine ⟨fun spec h => (by cases h), fun _ spec h => (by cases h),
        fun p _ _ _ spec h => (by cases h)⟩
    · rw [if_neg hmis]
      by_cases hz : flux_cores_per_task step.run * step.run.nodes ≤ 0
      · rw [if_pos hz]
        refine ⟨fun spec h => (by cases h), fun _ spec h => (by cases h),
          fun p _ _ _ spec h => (by cases h)⟩
      · rw [if_neg hz]
        have hzpos : 0 < flux_cores_per_task step.run * step.run.nodes :=
          Nat.pos_of_ne_zero (fun h => hz (by rw [h]))
        refine ⟨?_, ?_, ?_⟩
        · intro spec h
          cases h
          refine ⟨rfl, rfl, hzpos, ?_⟩
          intro p hp hppos
          by_contra hne
          exact hmis ⟨by rw [hp]; exact hppos, by rw [hp]; exact hne⟩
        · intro h0
          exact absurd h0 (Nat.pos_iff_ne_zero.mp hzpos)
        · intro p hp hppos hne spec h
          exact hmis ⟨by rw [hp]; exact hppos, by rw [hp]; exact hne⟩

/-- Witness for C1 on a consistent step: the request is sent and its
core count is cores-per-task (3) times nodes (2). -/
theorem c1_witness :
    flux_submit stepC1w "p" = Except.ok specC1w ∧
    specC1w.ncores = flux_cores_per_task stepC1w.run * stepC1w.run.nodes ∧
    0 < specC1w.ncores := by
  have hok : flux_submit stepC1w "p" = Except.ok specC1w := by decide
  have h := (c1_core_count stepC1w "p").1 specC1w hok
  exact ⟨hok, h.1, h.2.2.1⟩

/-- Counterexample to C1 as stated: `SpectrumFluxScriptAdapter.submit`
on a step with 2 nodes, 1 core per task and an explicit process count
of 0 reaches `rpc_send` (no failure) with a core count of 0, which is
non-positive and differs from cores-per-task × node count = 2. -/
theorem c1_counterexample :
    spectrum_submit stepC1x "s" = Except.ok specC1x ∧
    specC1x.ncores = 0 ∧
    stepC1x.run.cores_per_task.getD 1 * stepC1x.run.nodes = 2 := by
  refine ⟨by decide, by decide, by decide⟩

/-- C7 (amended): in `FluxScriptAdapter.submit`, cores-per-task and
GPU count default to 1 and 0 not only when the step omits them but
also when the step supplies a falsy value: a present-but-falsy
cores-per-task is replaced by 1 and a present-but-falsy GPU count by
0 in the job specification.  (`SpectrumFluxScriptAdapter.submit`
applies the defaults only when the key is absent and keeps a
present-but-falsy value unchanged; see the counterexample.) -/
theorem c7_falsy_defaults (step : Step) (path : String) :
    ((step.run.cores_per_task = some 0 ∨ step.run.cores_per_task = none) →
      ∀ spec, flux_submit step path = Except.ok spec →
        spec.opts.cores_per_task = 1 ∧ spec.ncores = step.run.nodes) ∧
    ((step.run.gpus = some 0 ∨ step.run.gpus = none) →
      ∀ spec, flux_submit step path = Except.ok spec →
        spec.ngpus = 0) := by
  have hshape : ∀ spec, flux_submit step path = Except.ok spec →
      spec.opts.cores_per_task = flux_cores_per_task step.run ∧
      spec.ncores = flux_cores_per_task step.run * step.run.nodes ∧
      spec.ngpus = flux_ngpus step.run := by
    unfold flux_submit
    cases hw : _convert_walltime_to_seconds step.run.walltime with
    | none => exact fun spec h => (by cases h)
    | some wt =>
      dsimp only
      intro spec h
      split at h
      · cases h
      · split at h
        · cases h
        · cases h
          exact ⟨rfl, rfl, rfl⟩
  constructor
  · intro hcpt spec h
    have hs := hshape spec h
    have hval : flux_cores_per_task step.run = 1 := by
      rcases hcpt with h0 | h0 <;> simp [flux_cores_per_task, h0]
    refine ⟨?_, ?_⟩
    · rw [hs.1, hval]
    · rw [hs.2.1, hval, one_mul]
  · intro hg spec h
    have hs := hshape spec h
    have hval : flux_ngpus step.run = 0 := by
      rcases hg with h0 | h0 <;> simp [flux_ngpus, h0]
    rw [hs.2.2, hval]

/-- Witness for C7: a step supplying cores-per-task 0 and gpus 0 gets
the defaults 1 and 0 in the flux variant's job specification. -/
theorem c7_witness :
    flux_submit stepC7w "p" = Except.ok specC7w ∧
    specC7w.opts.cores_per_task = 1 ∧ specC7w.ngpus = 0 := by
  have hok : flux_submit stepC7w "p" = Except.ok specC7w := by decide
  have h1 := (c7_falsy_defaults stepC7w "p").1 (Or.inl rfl) specC7w hok
  have h2 := (c7_falsy_defaults stepC7w "p").2 (Or.inl rfl) specC7w hok
  exact ⟨hok, h1.1, h2⟩

/-- Counterexample to C7 as stated: `SpectrumFluxScriptAdapter.submit`
keeps a present-but-falsy cores-per-task: with `cores per task = 0`
supplied, the job specification sent to the scheduler carries
cores-per-task 0, not the default 1. -/
theorem c7_counterexample :
    spectrum_submit stepC7x "s" = Except.ok specC7x ∧
    stepC7x.run.cores_per_task = some 0 ∧
    specC7x.opts.cores_per_task = 0 :=
  ⟨by decide, by decide, by decide⟩

/-- C3: during a `check_jobs` batch, a low-level I/O fault on a
key-value-store read (an `IOError` from either the `.state` or the
`.exit_status` read, modelled by `check_one` returning an error)
aborts the whole batch at that job, returning the ERROR code together
with the partial per-job results collected so far (the pre-populated
mapping updated only for the jobs polled before the fault); whereas
when no read faults, a job whose path is merely absent (`.noEnt`) is
marked UNKNOWN and polling continues: the batch returns OK and every
job of the batch, including those after the absent one, carries its
polled value. -/
theorem c3_fault_aborts_absent_continues (kvs : Kvs) (pre : List Nat)
    (j : Nat) (post : List Nat) (l : List Nat) :
    ((∀ i ∈ pre, check_one kvs i ≠ Except.error ()) →
      check_one kvs j = Except.error () →
      check_jobs kvs (JobInput.list (pre ++ j :: post)) =
        (JobStatusCode.ERROR,
         pre.foldl (applyOk kvs) (prepopulate (pre ++ j :: post)))) ∧
    ((∀ i ∈ l, check_one kvs i ≠ Except.error ()) → l ≠ [] →
      (check_jobs kvs (JobInput.list l)).1 = JobStatusCode.OK ∧
      (∀ i ∈ l, kvs.state i = KvsRead.noEnt →
        dictGet (check_jobs kvs (JobInput.list l)).2 i =
          some (some State.UNKNOWN)) ∧
      (∀ i ∈ l, dictGet (check_jobs kvs (JobInput.list l)).2 i =
        some (okVal kvs i))) := by
  constructor
  · intro hpre hj
    unfold check_jobs
    rw [if_neg (by simp [inputFalsy])]
    exact check_loop_abort kvs pre j post (prepopulate (pre ++ j :: post))
      hpre hj
  · intro hclean hne
    have hfalsy : inputFalsy (JobInput.list l) = false := by
      simp [inputFalsy, hne]
    have hloop : check_jobs kvs (JobInput.list l) =
        (if l.foldl (applyOk kvs) (prepopulate l) = [] then
          JobStatusCode.NOJOBS else JobStatusCode.OK,
         l.foldl (applyOk kvs) (prepopulate l)) := by
      unfold check_jobs
      rw [hfalsy]
      exact check_loop_clean kvs l (prepopulate l) hclean
    have hnn : l.foldl (applyOk kvs) (prepopulate l) ≠ [] :=
      foldl_applyOk_ne_nil kvs l (prepopulate l) (prepopulate_ne_nil l hne)
    refine ⟨?_, ?_, ?_⟩
    · rw [hloop]
      simp [hnn]
    · intro i hi hnoent
      rw [hloop]
      have hget := dictGet_foldl_applyOk_mem kvs l (prepopulate l) hclean
        i hi
      have hval : okVal kvs i = some State.UNKNOWN := by
        unfold okVal check_one
        rw [hnoent]
        simp [_state]
      rw [hval] at hget
      simpa using hget
    · intro i hi
      rw [hloop]
      simpa using dictGet_foldl_applyOk_mem kvs l (prepopulate l) hclean
        i hi

/-- Witness for C3 on `kvsC3w`: the batch [1, 2, 3] aborts at the
faulting job 2 with partial results, while the batch [1, 3, 4]
completes with job 3 UNKNOWN and job 4 still polled (RUNNING). -/
theorem c3_witness :
    check_jobs kvsC3w (JobInput.list [1, 2, 3]) =
      (JobStatusCode.ERROR,
       [(1, some State.RUNNING), (2, none), (3, none)]) ∧
    (check_jobs kvsC3w (JobInput.list [1, 3, 4])).1 = JobStatusCode.OK ∧
    dictGet (check_jobs kvsC3w (JobInput.list [1, 3, 4])).2 3 =
      some (some State.UNKNOWN) ∧
    dictGet (check_jobs kvsC3w (JobInput.list [1, 3, 4])).2 4 =
      some (some State.RUNNING) := by
  have ha := (c3_fault_aborts_absent_continues kvsC3w [1] 2 [3]
    [1, 3, 4]).1 (by decide) (by decide)
  have hb := (c3_fault_aborts_absent_continues kvsC3w [1] 2 [3]
    [1, 3, 4]).2 (by decide) (by decide)
  refine ⟨?_, hb.1, hb.2.1 3 (by decide) (by decide), ?_⟩
  · have ha2 : check_jobs kvsC3w (JobInput.list [1, 2, 3]) =
        (JobStatusCode.ERROR,
         List.foldl (applyOk kvsC3w) (prepopulate [1, 2, 3]) [1]) := ha
    rw [ha2]
    decide
  · have h4 := hb.2.2 4 (by decide)
    rw [h4]
    decide

theorem cancel_loop_error_sticky (env : CancelEnv) (l : List Nat) :
    (cancel_loop env l CancelCode.ERROR).1 = CancelCode.ERROR := by
  induction l with
  | nil => rfl
  | cons a l ih =>
    simp only [cancel_loop]
    cases h : (cancel_one env a).1 <;> simpa [h] using ih

theorem cancel_one_trace (env : CancelEnv) (job : Nat) :
    ["flux", "wreck", "cancel", toString job] ∈ (cancel_one env job).2 := by
  unfold cancel_one
  by_cases h1 : env.cancelRet job = 0
  · simp [h1]
  · rw [if_neg h1]
    by_cases h2 : env.killRet job = 0
    · simp [h2]
    · rw [if_neg h2]
      simp

theorem cancel_loop_trace (env : CancelEnv) (l : List Nat)
    (acc : CancelCode) (r : Nat) (hr : r ∈ l) :
    ["flux", "wreck", "cancel", toString r] ∈ (cancel_loop env l acc).2 := by
  induction l generalizing acc with
  | nil => simp at hr
  | cons a l ih =>
    simp only [cancel_loop, List.mem_append]
    rcases List.mem_cons.mp hr with h | h
    · subst h
      exact Or.inl (cancel_one_trace env r)
    · exact Or.inr (ih _ h)

/-- C5: in a `cancel_jobs` batch, when both the graceful cancel and
the forceful kill report failure for a job, the job is re-polled: if
the re-polled state is terminal ({FINISHED, CANCELLED, FAILED}) the
job counts as successfully terminated (a singleton batch returns OK);
if it is not terminal, the aggregate return is ERROR, and processing
still continues to all remaining jobs of the batch (each is issued
its own cancel command, and the aggregate stays ERROR regardless of
their outcomes).  An empty job list returns OK. -/
theorem c5_cancel_reconciliation (env : CancelEnv) (job : Nat)
    (rest : List Nat)
    (h1 : env.cancelRet job ≠ 0) (h2 : env.killRet job ≠ 0) :
    (inTermStatus (dictGet
        (check_jobs env.kvs (JobInput.list [job])).2 job) = true →
      cancel_jobs env [job] =
        (CancelCode.OK,
         [["flux", "wreck", "cancel", toString job],
          ["flux", "wreck", "kill", toString job]])) ∧
    (inTermStatus (dictGet
        (check_jobs env.kvs (JobInput.list [job])).2 job) = false →
      (cancel_jobs env (job :: rest)).1 = CancelCode.ERROR ∧
      ∀ r ∈ rest, ["flux", "wreck", "cancel", toString r] ∈
        (cancel_jobs env (job :: rest)).2) ∧
    cancel_jobs env [] = (CancelCode.OK, []) := by
  have hone_t : inTermStatus (dictGet
      (check_jobs env.kvs (JobInput.list [job])).2 job) = true →
      cancel_one env job =
        (true, [["flux", "wreck", "cancel", toString job],
                ["flux", "wreck", "kill", toString job]]) := by
    intro hterm
    unfold cancel_one
    rw [if_neg h1, if_neg h2]
    have hne : (check_jobs env.kvs (JobInput.list [job])).2 ≠ [] := by
      intro hnil
      rw [hnil] at hterm
      simp [dictGet, inTermStatus] at hterm
    simp [hne, hterm]
  have hone_f : inTermStatus (dictGet
      (check_jobs env.kvs (JobInput.list [job])).2 job) = false →
      (cancel_one env job).1 = false := by
    intro hterm
    unfold cancel_one
    rw [if_neg h1, if_neg h2]
    simp [hterm]
  refine ⟨?_, ?_, rfl⟩
  · intro hterm
    unfold cancel_jobs
    rw [if_neg (by simp)]
    simp only [cancel_loop, hone_t hterm]
    rfl
  · intro hterm
    constructor
    · unfold cancel_jobs
      rw [if_neg (by simp)]
      simp only [cancel_loop, hone_f hterm]
      simpa using cancel_loop_error_sticky env rest
    · intro r hr
      unfold cancel_jobs
      rw [if_neg (by simp)]
      simp only [cancel_loop, List.mem_append]
      exact Or.inr (cancel_loop_trace env rest _ r hr)

/-- Witness for C5 on `envC5w`: both commands fail for every job; job
4's re-poll is FINISHED so the singleton batch [4] is OK; job 5's
re-poll is RUNNING so the batch [5, 6] is ERROR and job 6 still gets
its cancel invocation. -/
theorem c5_witness :
    cancel_jobs envC5w [4] =
      (CancelCode.OK,
       [["flux", "wreck", "cancel", "4"], ["flux", "wreck", "kill", "4"]]) ∧
    (cancel_jobs envC5w [5, 6]).1 = CancelCode.ERROR ∧
    ["flux", "wreck", "cancel", "6"] ∈ (cancel_jobs envC5w [5, 6]).2 := by
  have ha := (c5_cancel_reconciliation envC5w 4 [] (by decide)
    (by decide)).1 (by decide)
  have hb := (c5_cancel_reconciliation envC5w 5 [6] (by decide)
    (by decide)).2.1 (by decide)
  exact ⟨by simpa using ha, hb.1, by simpa using hb.2 6 (by decide)⟩

theorem sbatchN_ne_echo (t : String) :
    "#SBATCH -N " ++ t ≠ "echo localhost > $HOSTF_SINGLE" := by
  obtain ⟨tdata⟩ := t
  intro h
  have h2 : ("#SBATCH -N " ++ String.mk tdata).data.head? = some '#' := rfl
  rw [h] at h2
  exact absurd h2 (by decide)

theorem sbatchT_ne_echo (t : String) :
    "#SBATCH -t " ++ t ≠ "echo localhost > $HOSTF_SINGLE" := by
  obtain ⟨tdata⟩ := t
  intro h
  have h2 : ("#SBATCH -t " ++ String.mk tdata).data.head? = some '#' := rfl
  rw [h] at h2
  exact absurd h2 (by decide)

/-- C8: the script emitted for a single-node step is the bare
interpreter marker line followed by the command — no resource header
block and no host-discovery lines; for a multi-node step
(node count > 1) on the Spectrum variant, the header writes the
participating-host list via node discovery (`instance-nodes`) rather
than the `echo localhost` fallback, appends the fixed `:44` port
suffix to each host line, and raises the stack-size limit. -/
theorem c8_script_emission (batch_nodes : String) (step : Step) :
    (step.run.nodes = 1 →
      spectrum_script_content batch_nodes step =
        some (_exec ++ "\n\n" ++ step.run.cmd ++ "\n")) ∧
    (step.run.nodes > 1 →
      ∀ wt, _convert_walltime_to_seconds step.run.walltime = some wt →
        spectrum_get_header batch_nodes step =
          some [_exec,
            "#SBATCH -N " ++ toString step.run.nodes,
            "#SBATCH -t " ++ toString wt,
            "HOSTF_SINGLE=$(mktemp /tmp/hostls-XXXXX)",
            "HOSTF=$(mktemp /tmp/hostl-XXXXX)",
            "instance-nodes > $HOSTF_SINGLE",
            "sed -e \"s/$/:44/\" $HOSTF_SINGLE > $HOSTF ",
            "ulimit -s 10240"] ∧
        ∀ header, spectrum_get_header batch_nodes step = some header →
          "instance-nodes > $HOSTF_SINGLE" ∈ header ∧
          "echo localhost > $HOSTF_SINGLE" ∉ header ∧
          "sed -e \"s/$/:44/\" $HOSTF_SINGLE > $HOSTF " ∈ header ∧
          "ulimit -s 10240" ∈ header) := by
  constructor
  · intro h1
    unfold spectrum_script_content get_scheduler_command
    rw [h1]
    simp
  · intro h2 wt hwt
    have hnz : step.run.nodes ≠ 0 := by omega
    have hhdr : spectrum_get_header batch_nodes step =
        some [_exec,
          "#SBATCH -N " ++ toString step.run.nodes,
          "#SBATCH -t " ++ toString wt,
          "HOSTF_SINGLE=$(mktemp /tmp/hostls-XXXXX)",
          "HOSTF=$(mktemp /tmp/hostl-XXXXX)",
          "instance-nodes > $HOSTF_SINGLE",
          "sed -e \"s/$/:44/\" $HOSTF_SINGLE > $HOSTF ",
          "ulimit -s 10240"] := by
      unfold spectrum_get_header
      rw [hwt]
      simp [hnz, h2]
    refine ⟨hhdr, ?_⟩
    intro header hh
    rw [hhdr] at hh
    cases hh
    refine ⟨by simp, ?_, by simp, by simp⟩
    intro hmem
    simp only [List.mem_cons, List.not_mem_nil, or_false] at hmem
    rcases hmem with h | h | h | h | h | h | h | h
    · exact absurd h (by decide)
    · exact sbatchN_ne_echo (toString step.run.nodes) h.symm
    · exact sbatchT_ne_echo (toString wt) h.symm
    · exact absurd h (by decide)
    · exact absurd h (by decide)
    · exact absurd h (by decide)
    · exact absurd h (by decide)
    · exact absurd h (by decide)

/-- Witness for C8: the single-node step's script is the bare marker
line plus command, and the multi-node step's header discovers hosts
via `instance-nodes`, suffixes `:44`, and raises the stack limit. -/
theorem c8_witness :
    spectrum_script_content "1" stepC8s = some "#!/bin/bash\n\nrun\n" ∧
    spectrum_get_header "1" stepC8m =
      some ["#!/bin/bash",
        "#SBATCH -N 2",
        "#SBATCH -t 5400",
        "HOSTF_SINGLE=$(mktemp /tmp/hostls-XXXXX)",
        "HOSTF=$(mktemp /tmp/hostl-XXXXX)",
        "instance-nodes > $HOSTF_SINGLE",
        "sed -e \"s/$/:44/\" $HOSTF_SINGLE > $HOSTF ",
        "ulimit -s 10240"] := by
  have ha := (c8_script_emission "1" stepC8s).1 rfl
  have hb := ((c8_script_emission "1" stepC8m).2 (by decide) 5400
    (by decide)).1
  constructor
  · rw [ha]
    rfl
  · rw [hb]
    rfl

end FluxAdapter
